import Mathlib

/-!
Verification development for the vdr-plugin-robotv streaming core.

The definitions below are a shallow embedding of the C++ sources under
src/: the recorded packet player (src/recordings/packetplayer.cpp), the
live streamer (src/live/livestreamer.cpp) and the stream controller
(src/robotv/controllers/streamcontroller.cpp), together with the value
types of src/demuxer/streaminfo.h.  Machine integers are modelled as Nat
and Int; C++ int64 division truncates toward zero and is rendered as
Int.tdiv.  Code of the repository that is not present under src/
(MsgPacket, LiveQueue, StreamBundle, DemuxerBundle internals and the
opcode tables) is modelled from the specification and marked as such in
the corresponding doc comment.
-/

namespace RoboTV

/-- The constant MIN_PACKET_SIZE shared by packetplayer.cpp line 29 and
livestreamer.cpp line 48: 128 * 1024 bytes, the outer-envelope release
threshold. -/
def MIN_PACKET_SIZE : Nat := 128 * 1024

/-- Modelled from the spec: the two bytes MsgPacket::put_U16 appends to the
payload buffer (msgpacket.cpp is not under src/; §6 fixes the field width). -/
def u16Bytes (n : Nat) : List Nat :=
  [n % 65536 / 256, n % 256]

/-- Modelled from the spec: the four bytes MsgPacket::put_U32 appends. -/
def u32Bytes (n : Nat) : List Nat :=
  [n % 4294967296 / 16777216, n / 65536 % 256, n / 256 % 256, n % 256]

/-- Modelled from the spec: the eight bytes MsgPacket::put_S64 appends, the
value taken mod 2^64. -/
def i64Bytes (v : Int) : List Nat :=
  let w := (v % 18446744073709551616).toNat
  [w / 72057594037927936 % 256, w / 281474976710656 % 256,
   w / 1099511627776 % 256, w / 4294967296 % 256,
   w / 16777216 % 256, w / 65536 % 256, w / 256 % 256, w % 256]

/-- One stream-data sub-packet as the request loops consume it from
getPacket / LiveQueue::read: the MsgPacket fields the loop copies, namely
its msgID, its clientID (carrying the frame type) and its payload bytes. -/
structure SubPacket where
  msgId : Nat
  clientId : Nat
  payload : List Nat
deriving Repr, DecidableEq

/-- Serialization of one sub-packet into the outer envelope, packetplayer.cpp
lines 250-256 and livestreamer.cpp lines 381-387: msgID as put_U16, clientID
as put_U16, then the payload blob. -/
def subBytes (p : SubPacket) : List Nat :=
  u16Bytes p.msgId ++ u16Bytes p.clientId ++ p.payload

/-- The outer envelope under assembly (the m_streamPacket member): header
bytes written at the start of the payload buffer, then the serialized
sub-packets in arrival order.  The payload buffer itself is
Envelope.payload. -/
structure Envelope where
  header : List Nat
  subs : List SubPacket
deriving Repr, DecidableEq

/-- The payload buffer of the envelope MsgPacket. -/
def Envelope.payload (e : Envelope) : List Nat :=
  e.header ++ (e.subs.map subBytes).flatten

/-- MsgPacket::getPayloadLength() of the envelope. -/
def Envelope.payloadLength (e : Envelope) : Nat :=
  e.payload.length

/-- The start and end wallclock times the recorded player maintains
(m_startTime, m_endTime, in milliseconds) together with the recording
length in seconds used to recompute them. -/
structure PPTimes where
  startTime : Int
  endTime : Int
  lengthSec : Int
deriving Repr, DecidableEq

/-- The frame-type value StreamInfo::FrameType::IFRAME, which onStreamPacket
stored in the clientID field (streaminfo.h line 60: ftIFRAME is the second
enumerator, value 1). -/
def IFRAME : Nat := 1

/-- PacketPlayer::requestPacket lines 236-241: on an I-frame whose
RecPlayer::update() call reports a change, or while the end time is still
zero, re-derive the times; the start time is set from the wallclock the
first time, and the end time is the start time plus the recording length.
`upd` is the RecPlayer::update() result and `nowMs` the wallclock reading
of that iteration, both inputs of the external collaborator. -/
def updateTimes (ts : PPTimes) (clientId : Nat) (upd : Bool) (nowMs : Int) :
    PPTimes :=
  if (clientId = IFRAME ∧ upd = true) ∨ ts.endTime = 0 then
    let st := if ts.startTime = 0 then nowMs else ts.startTime
    { ts with startTime := st, endTime := st + ts.lengthSec * 1000 }
  else ts

/-- PacketPlayer::requestPacket lines 244-256: when the envelope payload is
still empty (MsgPacket::eop() on a write-only packet), the start and end
times are written first as a 16-byte header; then the sub-packet is
appended, prefixed by its msgID:u16 and clientID:u16 as subBytes records. -/
def envelopeAdd (ts : PPTimes) (e : Envelope) (p : SubPacket) : Envelope :=
  let e1 := if e.payloadLength = 0 then
      { e with header := i64Bytes ts.startTime ++ i64Bytes ts.endTime }
    else e
  { e1 with subs := e1.subs ++ [p] }

/-- Result of one PacketPlayer::requestPacket call: the envelope returned to
the caller (if any), the retained partial envelope (m_streamPacket after the
call), the times after the call, and the sub-packets getPacket had not yet
delivered when the call returned. -/
structure RequestResult where
  sent : Option Envelope
  kept : Option Envelope
  times : PPTimes
  rest : List (SubPacket × Bool × Int)
deriving Repr, DecidableEq

/-- The while-loop of PacketPlayer::requestPacket lines 233-267.  The input
list abstracts the successive non-null results of getPacket() together with
the RecPlayer::update() result and wallclock reading of each iteration; the
envelope is returned as soon as its payload length reaches MIN_PACKET_SIZE
(lines 261-266), and retained when getPacket runs dry (lines 269-270 return
nullptr and keep m_streamPacket). -/
def requestPacketLoop (ts : PPTimes) (e : Envelope) :
    List (SubPacket × Bool × Int) → RequestResult
  | [] => ⟨none, some e, ts, []⟩
  | (p, upd, now) :: rest =>
      let ts1 := updateTimes ts p.clientId upd now
      let e1 := envelopeAdd ts1 e p
      if MIN_PACKET_SIZE ≤ e1.payloadLength then ⟨some e1, none, ts1, rest⟩
      else requestPacketLoop ts1 e1 rest

/-- PacketPlayer::requestPacket lines 224-271: a fresh empty MsgPacket is
created when no partial envelope is retained (lines 228-231), then the loop
runs. -/
def PacketPlayer.requestPacket (streamPacket : Option Envelope) (ts : PPTimes)
    (input : List (SubPacket × Bool × Int)) : RequestResult :=
  requestPacketLoop ts (streamPacket.getD ⟨[], []⟩) input

/-- The envelope LiveStreamer::requestPacket creates when no partial one is
retained, lines 368-373: the timeshift start position and the current
wallclock time are written as put_S64 before any sub-packet. -/
def lsFreshEnvelope (tsStart nowMs : Int) : Envelope :=
  ⟨i64Bytes tsStart ++ i64Bytes nowMs, []⟩

/-- Result of one LiveStreamer::requestPacket call: the envelope handed to
the caller (if any), the retained partial envelope, and the queue content
left unread. -/
structure LSRequestResult where
  sent : Option Envelope
  kept : Option Envelope
  rest : List SubPacket
deriving Repr, DecidableEq

/-- The while-loop of LiveStreamer::requestPacket lines 376-397 followed by
the pause check of lines 399-403.  LiveQueue::read is modelled from the
spec (livequeue.cpp is not under src/): reading dequeues the front packet,
and a paused queue delivers nothing, since §5 states that PAUSE only
affects the consumer side willingness to drain the queue; keyFrameMode is
false, which is what StreamController::processRequest passes.  Each read
sub-packet is appended to the envelope prefixed by msgID:u16 and
clientID:u16 (lines 381-387); the envelope is returned once its payload
reaches MIN_PACKET_SIZE (lines 392-396); when the queue yields nothing the
partial envelope is flushed if the queue is paused and retained
otherwise. -/
def lsRequestPacketLoop (paused : Bool) (e : Envelope) :
    List SubPacket → LSRequestResult
  | [] => if paused then ⟨some e, none, []⟩ else ⟨none, some e, []⟩
  | p :: rest =>
      if paused then ⟨some e, none, p :: rest⟩
      else
        let e1 := { e with subs := e.subs ++ [p] }
        if MIN_PACKET_SIZE ≤ e1.payloadLength then ⟨some e1, none, rest⟩
        else lsRequestPacketLoop paused e1 rest

/-- LiveStreamer::requestPacket lines 364-406. -/
def LiveStreamer.requestPacket (streamPacket : Option Envelope) (paused : Bool)
    (tsStart nowMs : Int) (queue : List SubPacket) : LSRequestResult :=
  lsRequestPacketLoop paused (streamPacket.getD (lsFreshEnvelope tsStart nowMs))
    queue

/-- The payload length contributed by a list of sub-packets: four prefix
bytes (msgID:u16 and clientID:u16) plus the payload of each. -/
def addLen (l : List SubPacket) : Nat :=
  (l.map (fun p => 4 + p.payload.length)).sum

/-- The payload length of an outer envelope holding the 16-byte header and
the sub-packets `l`: the accumulated payload of the claim. -/
def accLength (l : List SubPacket) : Nat :=
  16 + addLen l

/-- The times after one iteration per input element, folding updateTimes. -/
def timesFold (ts : PPTimes) (l : List (SubPacket × Bool × Int)) : PPTimes :=
  l.foldl (fun t s => updateTimes t s.1.clientId s.2.1 s.2.2) ts

theorem subBytes_length (p : SubPacket) :
    (subBytes p).length = 4 + p.payload.length := by
  simp [subBytes, u16Bytes]
  omega

theorem addLen_nil : addLen [] = 0 := rfl

theorem addLen_cons (p : SubPacket) (l : List SubPacket) :
    addLen (p :: l) = 4 + p.payload.length + addLen l := by
  simp [addLen]

theorem addLen_append (l₁ l₂ : List SubPacket) :
    addLen (l₁ ++ l₂) = addLen l₁ + addLen l₂ := by
  simp [addLen]

theorem payloadLength_eq (e : Envelope) :
    e.payloadLength = e.header.length + addLen e.subs := by
  simp [Envelope.payloadLength, Envelope.payload, addLen, List.map_map,
    Function.comp_def, subBytes_length]

theorem i64Bytes_length (v : Int) : (i64Bytes v).length = 8 := rfl

theorem timesFold_nil (ts : PPTimes) : timesFold ts [] = ts := rfl

theorem timesFold_cons (ts : PPTimes) (s : SubPacket × Bool × Int)
    (l : List (SubPacket × Bool × Int)) :
    timesFold ts (s :: l) = timesFold (updateTimes ts s.1.clientId s.2.1 s.2.2) l := rfl

/-- A mk-form restatement of payloadLength for rewriting convenience. -/
theorem payloadLength_mk (h : List Nat) (s : List SubPacket) :
    Envelope.payloadLength ⟨h, s⟩ = h.length + addLen s :=
  payloadLength_eq ⟨h, s⟩

/-- Effect of one envelopeAdd step: the header is written when the envelope
was still empty and kept otherwise, the sub-packet is appended. -/
theorem envelopeAdd_step (ts : PPTimes) (e : Envelope) (p : SubPacket)
    (h : e.header.length = 16 ∨ e = ⟨[], []⟩) :
    ∃ hdr, hdr.length = 16 ∧ envelopeAdd ts e p = ⟨hdr, e.subs ++ [p]⟩ := by
  rcases h with h | h
  · refine ⟨e.header, h, ?_⟩
    have hne : e.payloadLength ≠ 0 := by
      rw [payloadLength_eq, h]; omega
    simp [envelopeAdd, hne]
  · subst h
    refine ⟨i64Bytes ts.startTime ++ i64Bytes ts.endTime, by simp [i64Bytes], ?_⟩
    simp [envelopeAdd, Envelope.payloadLength, Envelope.payload]

/-- The requestPacket loop returns the envelope at the first sub-packet `k`
whose arrival lifts the accumulated payload to MIN_PACKET_SIZE, with
exactly the first k sub-packets inside and the rest unconsumed. -/
theorem requestPacketLoop_hit :
    ∀ (input : List (SubPacket × Bool × Int)) (ts : PPTimes) (e : Envelope)
      (k : Nat),
      e.header.length = 16 ∨ e = ⟨[], []⟩ → 1 ≤ k → k ≤ input.length →
      MIN_PACKET_SIZE ≤ 16 + addLen e.subs + addLen ((input.take k).map Prod.fst) →
      (∀ j, j < k →
        16 + addLen e.subs + addLen ((input.take j).map Prod.fst) < MIN_PACKET_SIZE) →
      ∃ hdr, hdr.length = 16 ∧
        requestPacketLoop ts e input =
          ⟨some ⟨hdr, e.subs ++ (input.take k).map Prod.fst⟩, none,
           timesFold ts (input.take k), input.drop k⟩
  | [], _, _, k, _, hk, hlen, _, _ => by
      simp at hlen; omega
  | (p, upd, now) :: rest, ts, e, k, he, hk, hlen, hhit, hfst => by
      obtain ⟨hdr1, hh1, heq1⟩ :=
        envelopeAdd_step (updateTimes ts p.clientId upd now) e p he
      have hsubs : (envelopeAdd (updateTimes ts p.clientId upd now) e p).subs
          = e.subs ++ [p] := by rw [heq1]
      have hpl : (envelopeAdd (updateTimes ts p.clientId upd now) e p).payloadLength
          = 16 + addLen e.subs + (4 + p.payload.length) := by
        rw [heq1, payloadLength_mk, hh1, addLen_append, addLen_cons, addLen_nil]
        omega
      by_cases hc : MIN_PACKET_SIZE ≤
          (envelopeAdd (updateTimes ts p.clientId upd now) e p).payloadLength
      · have hk1 : k = 1 := by
          by_contra hne
          have h1 := hfst 1 (by omega)
          rw [hpl] at hc
          simp [addLen_cons, addLen_nil] at h1
          omega
        subst hk1
        refine ⟨hdr1, hh1, ?_⟩
        simp only [requestPacketLoop, if_pos hc]
        rw [heq1]
        simp [timesFold_cons, timesFold_nil]
      · have hk2 : 2 ≤ k := by
          by_contra hne
          have hk1 : k = 1 := by omega
          subst hk1
          rw [hpl] at hc
          simp [addLen_cons, addLen_nil] at hhit
          omega
        obtain ⟨k0, rfl⟩ : ∃ k0, k = k0 + 1 := ⟨k - 1, by omega⟩
        have IH := requestPacketLoop_hit rest (updateTimes ts p.clientId upd now)
          (envelopeAdd (updateTimes ts p.clientId upd now) e p) k0
          (by rw [heq1]; exact Or.inl hh1) (by omega) (by simp at hlen; omega)
          (by
            rw [hsubs]
            simp only [List.take_succ_cons, List.map_cons, addLen_cons] at hhit
            simp only [addLen_append, addLen_cons, addLen_nil]
            omega)
          (by
            intro j hj
            have := hfst (j + 1) (by omega)
            rw [hsubs]
            simp only [List.take_succ_cons, List.map_cons, addLen_cons] at this
            simp only [addLen_append, addLen_cons, addLen_nil]
            omega)
        obtain ⟨hdr, hh16, heq⟩ := IH
        refine ⟨hdr, hh16, ?_⟩
        simp only [requestPacketLoop, if_neg hc]
        rw [heq, hsubs]
        simp [timesFold_cons]

/-- The requestPacket loop returns nothing when no prefix of the input lifts
the accumulated payload to MIN_PACKET_SIZE. -/
theorem requestPacketLoop_none :
    ∀ (input : List (SubPacket × Bool × Int)) (ts : PPTimes) (e : Envelope),
      e.header.length = 16 ∨ e = ⟨[], []⟩ →
      (∀ j, j ≤ input.length →
        16 + addLen e.subs + addLen ((input.take j).map Prod.fst) < MIN_PACKET_SIZE) →
      (requestPacketLoop ts e input).sent = none
  | [], _, _, _, _ => rfl
  | (p, upd, now) :: rest, ts, e, he, hall => by
      obtain ⟨hdr1, hh1, heq1⟩ :=
        envelopeAdd_step (updateTimes ts p.clientId upd now) e p he
      have hsubs : (envelopeAdd (updateTimes ts p.clientId upd now) e p).subs
          = e.subs ++ [p] := by rw [heq1]
      have hpl : (envelopeAdd (updateTimes ts p.clientId upd now) e p).payloadLength
          = 16 + addLen e.subs + (4 + p.payload.length) := by
        rw [heq1, payloadLength_mk, hh1, addLen_append, addLen_cons, addLen_nil]
        omega
      have hc : ¬ MIN_PACKET_SIZE ≤
          (envelopeAdd (updateTimes ts p.clientId upd now) e p).payloadLength := by
        have h1 := hall 1 (by simp)
        rw [hpl]
        simp [addLen_cons, addLen_nil] at h1
        omega
      simp only [requestPacketLoop, if_neg hc]
      exact requestPacketLoop_none rest (updateTimes ts p.clientId upd now)
        (envelopeAdd (updateTimes ts p.clientId upd now) e p)
        (by rw [heq1]; exact Or.inl hh1)
        (by
          intro j hj
          have := hall (j + 1) (by simp; omega)
          rw [hsubs, addLen_append, addLen_cons, addLen_nil]
          simp only [List.take_succ_cons, List.map_cons, addLen_cons] at this
          omega)

/-- The LiveStreamer loop, not paused: the envelope is returned at the first
sub-packet lifting its payload to MIN_PACKET_SIZE, holding exactly the
sub-packets read so far. -/
theorem lsRequestPacketLoop_hit :
    ∀ (qs : List SubPacket) (e : Envelope) (k : Nat),
      1 ≤ k → k ≤ qs.length →
      MIN_PACKET_SIZE ≤ e.payloadLength + addLen (qs.take k) →
      (∀ j, j < k → e.payloadLength + addLen (qs.take j) < MIN_PACKET_SIZE) →
      lsRequestPacketLoop false e qs =
        ⟨some ⟨e.header, e.subs ++ qs.take k⟩, none, qs.drop k⟩
  | [], _, k, hk, hlen, _, _ => by simp at hlen; omega
  | p :: rest, e, k, hk, hlen, hhit, hfst => by
      have hpl : (Envelope.mk e.header (e.subs ++ [p])).payloadLength
          = e.payloadLength + (4 + p.payload.length) := by
        rw [payloadLength_mk, payloadLength_eq, addLen_append, addLen_cons, addLen_nil]
        omega
      by_cases hc : MIN_PACKET_SIZE ≤ (Envelope.mk e.header (e.subs ++ [p])).payloadLength
      · have hk1 : k = 1 := by
          by_contra hne
          have h1 := hfst 1 (by omega)
          rw [hpl] at hc
          simp [addLen_cons, addLen_nil] at h1
          omega
        subst hk1
        simp only [lsRequestPacketLoop, Bool.false_eq_true, if_false, if_pos hc]
        simp
      · have hk2 : 2 ≤ k := by
          by_contra hne
          have hk1 : k = 1 := by omega
          subst hk1
          rw [hpl] at hc
          simp [addLen_cons, addLen_nil] at hhit
          omega
        obtain ⟨k0, rfl⟩ : ∃ k0, k = k0 + 1 := ⟨k - 1, by omega⟩
        have IH := lsRequestPacketLoop_hit rest ⟨e.header, e.subs ++ [p]⟩ k0
          (by omega) (by simp at hlen; omega)
          (by
            rw [hpl] at *
            simp only [List.take_succ_cons, addLen_cons] at hhit
            omega)
          (by
            intro j hj
            have := hfst (j + 1) (by omega)
            rw [hpl]
            simp only [List.take_succ_cons, addLen_cons] at this
            omega)
        simp only [lsRequestPacketLoop, Bool.false_eq_true, if_false, if_neg hc]
        rw [IH]
        simp

/-- The LiveStreamer loop, not paused, with no prefix reaching the
threshold: nothing is sent and the partial envelope keeps every sub-packet
read. -/
theorem lsRequestPacketLoop_none :
    ∀ (qs : List SubPacket) (e : Envelope),
      (∀ j, j ≤ qs.length → e.payloadLength + addLen (qs.take j) < MIN_PACKET_SIZE) →
      lsRequestPacketLoop false e qs = ⟨none, some ⟨e.header, e.subs ++ qs⟩, []⟩
  | [], e, _ => by simp [lsRequestPacketLoop]
  | p :: rest, e, hall => by
      have hpl : (Envelope.mk e.header (e.subs ++ [p])).payloadLength
          = e.payloadLength + (4 + p.payload.length) := by
        rw [payloadLength_mk, payloadLength_eq, addLen_append, addLen_cons, addLen_nil]
        omega
      have hc : ¬ MIN_PACKET_SIZE ≤ (Envelope.mk e.header (e.subs ++ [p])).payloadLength := by
        have h1 := hall 1 (by simp)
        rw [hpl]
        simp [addLen_cons, addLen_nil] at h1
        omega
      simp only [lsRequestPacketLoop, Bool.false_eq_true, if_false, if_neg hc]
      rw [lsRequestPacketLoop_none rest ⟨e.header, e.subs ++ [p]⟩
        (by
          intro j hj
          have := hall (j + 1) (by simp; omega)
          rw [hpl]
          simp only [List.take_succ_cons, addLen_cons] at this
          omega)]
      simp

/-- The LiveStreamer loop on a paused queue returns the current envelope at
once, reading nothing. -/
theorem lsRequestPacketLoop_paused (e : Envelope) (qs : List SubPacket) :
    lsRequestPacketLoop true e qs = ⟨some e, none, qs⟩ := by
  cases qs <;> rfl

theorem lsFreshEnvelope_payloadLength (a b : Int) :
    (lsFreshEnvelope a b).payloadLength = 16 := by
  simp [lsFreshEnvelope, payloadLength_mk, addLen_nil, i64Bytes_length]

/-- C1: for every sequence of available stream-data sub-packets,
PacketPlayer::requestPacket and LiveStreamer::requestPacket append the
sub-packets to one outer envelope in order, each prefixed by its msgID:u16
and clientID:u16 (the Envelope serialization subBytes), and return the
envelope exactly when the accumulated payload first reaches or exceeds
128 KiB at some sub-packet k: the returned envelope holds exactly
sub-packets 1..k, the later ones stay unconsumed, and when no prefix
reaches the threshold nothing is returned.  The LiveStreamer statement is
for a queue that is not paused. -/
theorem c1_outer_envelope_assembly
    (input : List (SubPacket × Bool × Int)) (qs : List SubPacket)
    (ts : PPTimes) (tsStart nowMs : Int) (k kq : Nat)
    (hk : 1 ≤ k) (hlen : k ≤ input.length)
    (hhit : MIN_PACKET_SIZE ≤ accLength ((input.take k).map Prod.fst))
    (hfst : ∀ j, j < k → accLength ((input.take j).map Prod.fst) < MIN_PACKET_SIZE)
    (hkq : 1 ≤ kq) (hlenq : kq ≤ qs.length)
    (hhitq : MIN_PACKET_SIZE ≤ accLength (qs.take kq))
    (hfstq : ∀ j, j < kq → accLength (qs.take j) < MIN_PACKET_SIZE) :
    (∃ hdr, hdr.length = 16 ∧
        PacketPlayer.requestPacket none ts input =
          ⟨some ⟨hdr, (input.take k).map Prod.fst⟩, none,
           timesFold ts (input.take k), input.drop k⟩)
    ∧ LiveStreamer.requestPacket none false tsStart nowMs qs =
        ⟨some ⟨i64Bytes tsStart ++ i64Bytes nowMs, qs.take kq⟩, none, qs.drop kq⟩
    ∧ (∀ input2 : List (SubPacket × Bool × Int),
        (∀ j, j ≤ input2.length →
          accLength ((input2.take j).map Prod.fst) < MIN_PACKET_SIZE) →
        (PacketPlayer.requestPacket none ts input2).sent = none)
    ∧ (∀ qs2 : List SubPacket,
        (∀ j, j ≤ qs2.length → accLength (qs2.take j) < MIN_PACKET_SIZE) →
        (LiveStreamer.requestPacket none false tsStart nowMs qs2).sent = none) := by
  refine ⟨?_, ?_, ?_, ?_⟩
  · obtain ⟨hdr, hh, heq⟩ := requestPacketLoop_hit input ts ⟨[], []⟩ k
      (Or.inr rfl) hk hlen
      (by simpa [accLength, addLen_nil] using hhit)
      (by intro j hj; simpa [accLength, addLen_nil] using hfst j hj)
    exact ⟨hdr, hh, by simpa [PacketPlayer.requestPacket] using heq⟩
  · have heq := lsRequestPacketLoop_hit qs (lsFreshEnvelope tsStart nowMs) kq
      hkq hlenq
      (by simpa [accLength, lsFreshEnvelope_payloadLength] using hhitq)
      (by intro j hj
          simpa [accLength, lsFreshEnvelope_payloadLength] using hfstq j hj)
    simpa [LiveStreamer.requestPacket, lsFreshEnvelope] using heq
  · intro input2 hall
    have heq := requestPacketLoop_none input2 ts ⟨[], []⟩ (Or.inr rfl)
      (by intro j hj; simpa [accLength, addLen_nil] using hall j hj)
    simpa [PacketPlayer.requestPacket] using heq
  · intro qs2 hall
    have heq := lsRequestPacketLoop_none qs2 (lsFreshEnvelope tsStart nowMs)
      (by intro j hj
          simpa [accLength, lsFreshEnvelope_payloadLength] using hall j hj)
    simp [LiveStreamer.requestPacket, heq]

/-- A sub-packet with a 70000-byte payload, used to instantiate the claim
theorems at concrete inputs. -/
def bigSub : SubPacket := ⟨2, 1, List.replicate 70000 0⟩

theorem bigSub_payload_length : bigSub.payload.length = 70000 :=
  List.length_replicate ..

theorem addLen_bigSub_one : addLen [bigSub] = 70004 := by
  simp only [addLen, List.map_cons, List.map_nil, List.sum_cons, List.sum_nil,
    bigSub_payload_length]
  omega

theorem addLen_bigSub_two : addLen [bigSub, bigSub] = 140008 := by
  simp only [addLen, List.map_cons, List.map_nil, List.sum_cons, List.sum_nil,
    bigSub_payload_length]
  omega

theorem accLength_nil : accLength [] = 16 := rfl

theorem accLength_bigSub_one : accLength [bigSub] = 70020 := by
  rw [accLength, addLen_bigSub_one]

theorem accLength_bigSub_two : accLength [bigSub, bigSub] = 140024 := by
  rw [accLength, addLen_bigSub_two]

/-- Witness for c1_outer_envelope_assembly: three 70000-byte sub-packets
cross the 128 KiB threshold at the second one, so the third stays
unconsumed. -/
theorem c1_outer_envelope_assembly_witness :
    (PacketPlayer.requestPacket none ⟨0, 0, 0⟩
        [(bigSub, false, 0), (bigSub, false, 0), (bigSub, false, 0)]).rest
      = [(bigSub, false, 0)] := by
  have e0 : (([] : List (SubPacket × Bool × Int)).map Prod.fst) = [] := rfl
  obtain ⟨⟨hdr, hh, heq⟩, hls, hn1, hn2⟩ := c1_outer_envelope_assembly
    [(bigSub, false, 0), (bigSub, false, 0), (bigSub, false, 0)]
    [bigSub, bigSub, bigSub] ⟨0, 0, 0⟩ 0 0 2 2
    (by norm_num) (by norm_num)
    (by
      have e : (([(bigSub, false, 0), (bigSub, false, 0),
          (bigSub, false, 0)].take 2).map (Prod.fst (β := Bool × Int)))
          = [bigSub, bigSub] := rfl
      rw [e, accLength_bigSub_two]
      norm_num [MIN_PACKET_SIZE])
    (by
      intro j hj
      interval_cases j
      · rw [List.take_zero, e0, accLength_nil]
        norm_num [MIN_PACKET_SIZE]
      · have e : (([(bigSub, false, 0), (bigSub, false, 0),
            (bigSub, false, 0)].take 1).map (Prod.fst (β := Bool × Int)))
            = [bigSub] := rfl
        rw [e, accLength_bigSub_one]
        norm_num [MIN_PACKET_SIZE])
    (by norm_num) (by norm_num)
    (by
      have e : ([bigSub, bigSub, bigSub].take 2) = [bigSub, bigSub] := rfl
      rw [e, accLength_bigSub_two]
      norm_num [MIN_PACKET_SIZE])
    (by
      intro j hj
      interval_cases j
      · rw [List.take_zero, accLength_nil]
        norm_num [MIN_PACKET_SIZE]
      · have e : ([bigSub, bigSub, bigSub].take 1) = [bigSub] := rfl
        rw [e, accLength_bigSub_one]
        norm_num [MIN_PACKET_SIZE])
  rw [heq]
  rfl

/-- C10: when the live queue yields no further packet,
LiveStreamer::requestPacket returns the partially assembled outer envelope,
below the threshold, exactly when the queue is paused, clearing the
retained partial envelope; when not paused it returns nothing and retains
the partial envelope with its contents preserved for the next call. -/
theorem c10_requestPacket_pause_flush
    (st : Option Envelope) (queue : List SubPacket) (tsStart nowMs : Int) :
    LiveStreamer.requestPacket st true tsStart nowMs queue =
      ⟨some (st.getD (lsFreshEnvelope tsStart nowMs)), none, queue⟩
    ∧ ((∀ j, j ≤ queue.length →
          (st.getD (lsFreshEnvelope tsStart nowMs)).payloadLength
            + addLen (queue.take j) < MIN_PACKET_SIZE) →
        LiveStreamer.requestPacket st false tsStart nowMs queue =
          ⟨none, some ⟨(st.getD (lsFreshEnvelope tsStart nowMs)).header,
                       (st.getD (lsFreshEnvelope tsStart nowMs)).subs ++ queue⟩,
           []⟩) := by
  constructor
  · exact lsRequestPacketLoop_paused _ queue
  · intro hall
    exact lsRequestPacketLoop_none queue _ hall

/-- Witness for c10_requestPacket_pause_flush at a concrete one-packet
queue: paused flushes the below-threshold envelope, not paused returns
nothing. -/
theorem c10_requestPacket_pause_flush_witness :
    (LiveStreamer.requestPacket none true 0 0 [⟨2, 1, [7]⟩]).sent
      = some (lsFreshEnvelope 0 0)
    ∧ (LiveStreamer.requestPacket none false 0 0 [⟨2, 1, [7]⟩]).sent = none := by
  have h := c10_requestPacket_pause_flush none [⟨2, 1, [7]⟩] 0 0
  have h2 := h.2 (by
    intro j hj
    have hj1 : j ≤ 1 := by simpa using hj
    interval_cases j <;>
      norm_num [lsFreshEnvelope_payloadLength, addLen, MIN_PACKET_SIZE])
  exact ⟨by rw [h.1]; rfl, by rw [h2]⟩

/-- The stream content kinds of streaminfo.h lines 35-42. -/
inductive Content
  | scNONE
  | scVIDEO
  | scAUDIO
  | scSUBTITLE
  | scTELETEXT
  | scSTREAMINFO
deriving DecidableEq, Repr

/-- The fields of TsDemuxer::StreamPacket that packetplayer.cpp reads in
onStreamPacket (the demuxer headers are not under src/, the field set is
taken from the uses at lines 81-103): content kind, pid, timestamps,
duration, frame type, payload bytes and the byte offset in the source. -/
structure StreamPacket where
  pid : Nat
  content : Content
  frameType : Nat
  pts : Int
  dts : Int
  duration : Nat
  data : List Nat
  streamPosition : Int
deriving DecidableEq, Repr

/-- A MsgPacket held in the player queues: msgID, channelID, clientID
(carrying the frame type on stream packets) and payload bytes. -/
structure MsgPkt where
  msgId : Nat
  channelId : Nat
  clientId : Nat
  payload : List Nat
deriving DecidableEq, Repr

/-- Modelled from the spec: the opcode ROBOTV_STREAM_CHANGE of
robotvcommand.h (not under src/); only distinctness matters here. -/
def ROBOTV_STREAM_CHANGE : Nat := 1

/-- Modelled from the spec: the opcode ROBOTV_STREAM_MUXPKT of
robotvcommand.h (not under src/). -/
def ROBOTV_STREAM_MUXPKT : Nat := 2

/-- Modelled from the spec: the channel id ROBOTV_CHANNEL_STREAM of
robotvcommand.h (not under src/). -/
def ROBOTV_CHANNEL_STREAM : Nat := 5

/-- Modelled from the spec: DemuxerBundle::isReady (demuxer sources are not
under src/) — §4.1: ready once every stream the set was given has produced
one fully parsed StreamInfo.  The bundle is a list of per-stream parsed
flags. -/
def DemuxerBundle.isReady (d : List Bool) : Bool :=
  d.all (fun b => b)

/-- Modelled from the spec: LiveStreamer::createStreamChangePacket (not
under src/) builds the stream-change notification for the demuxer set; the
claims only use its place in the queue, so its payload is left empty. -/
def createStreamChangePacket (d : List Bool) : MsgPkt :=
  { msgId := ROBOTV_STREAM_CHANGE, channelId := ROBOTV_CHANNEL_STREAM,
    clientId := d.length, payload := [] }

/-- The recorded player state: the cPatPmtParser contents (abstracted to a
Nat that Reset() returns to 0), the tracked PAT/PMT versions, the pending
stream-change request, the demuxer set (per-stream parsed flags), the
pre-queue and output queue, the partial outer envelope, and the cursor
members of packetplayer.h used by the functions under src/. -/
structure PPState where
  parserSt : Nat
  patVersion : Int
  pmtVersion : Int
  requestStreamChange : Bool
  demuxers : List Bool
  preQueue : List MsgPkt
  queue : List MsgPkt
  streamPacket : Option Envelope
  position : Int
  totalLength : Int
  startTime : Int
  endTime : Int
  lengthSec : Int
deriving DecidableEq, Repr

/-- PacketPlayer::PacketPlayer (packetplayer.cpp lines 31-45): stream change
requested, versions -1, position 0, start and end times 0 ms.  The total
length and the recording length in seconds come from the RecPlayer base and
the cRecording collaborator. -/
def PacketPlayer.init (totalLength lengthSec : Int) : PPState :=
  { parserSt := 0, patVersion := -1, pmtVersion := -1,
    requestStreamChange := true, demuxers := [], preQueue := [], queue := [],
    streamPacket := none, position := 0, totalLength := totalLength,
    startTime := 0, endTime := 0, lengthSec := lengthSec }

/-- PacketPlayer::clearQueue (lines 273-281): every packet of m_queue is
popped and destroyed.  m_preQueue is not touched. -/
def PacketPlayer.clearQueue (s : PPState) : PPState :=
  { s with queue := [] }

/-- PacketPlayer::reset (lines 283-297): parser reset, demuxers cleared,
stream change re-armed, versions back to -1, the partial outer envelope
dropped, and clearQueue.  Note that m_preQueue is not cleared. -/
def PacketPlayer.reset (s : PPState) : PPState :=
  PacketPlayer.clearQueue
    { s with parserSt := 0, demuxers := [], requestStreamChange := true,
             patVersion := -1, pmtVersion := -1, streamPacket := none }

/-- The MsgPacket built for one stream packet, onStreamPacket lines 86-108:
MUXPKT opcode on the stream channel, the frame type in the clientID field,
and the payload pid:u16, pts:s64, dts:s64, duration:u32, size:u32, data,
wallclock timestamp:s64 with the timestamp interpolated from the stream
position (line 103, int64 division truncating toward zero). -/
def PacketPlayer.muxPacket (s : PPState) (p : StreamPacket) : MsgPkt :=
  let durationMs : Int :=
    (s.lengthSec * 1000 * p.streamPosition).tdiv s.totalLength
  let currentTime : Int := s.startTime + durationMs
  { msgId := ROBOTV_STREAM_MUXPKT, channelId := ROBOTV_CHANNEL_STREAM,
    clientId := p.frameType,
    payload := u16Bytes p.pid ++ i64Bytes p.pts ++ i64Bytes p.dts
      ++ u32Bytes p.duration ++ u32Bytes p.data.length ++ p.data
      ++ i64Bytes currentTime }

/-- PacketPlayer::onStreamPacket (lines 53-123): when a stream change is
pending and the demuxer set is ready, the stream-change packet enters the
queue followed by every pre-queued packet in order (lines 55-78); non
audio/video packets are then dropped (lines 81-83); otherwise the stream
packet is built and either pre-queued — dropped when more than 50 are
already pending (lines 111-120) — or appended to the queue (line 122). -/
def PacketPlayer.onStreamPacket (s : PPState) (p : StreamPacket) : PPState :=
  let s1 :=
    if s.requestStreamChange && DemuxerBundle.isReady s.demuxers then
      { s with requestStreamChange := false,
               queue := s.queue ++ [createStreamChangePacket s.demuxers]
                 ++ s.preQueue,
               preQueue := [] }
    else s
  if p.content ≠ Content.scVIDEO ∧ p.content ≠ Content.scAUDIO then s1
  else
    let packet := PacketPlayer.muxPacket s1 p
    if ¬ DemuxerBundle.isReady s1.demuxers then
      if 50 < s1.preQueue.length then s1
      else { s1 with preQueue := s1.preQueue ++ [packet] }
    else { s1 with queue := s1.queue ++ [packet] }

/-- The queue branch of PacketPlayer::getNextPacket (lines 136-141): the
front packet leaves the queue first; the block-reading remainder of the
function only runs when the queue is empty and is abstracted by the input
sequence of the requestPacket model. -/
def PacketPlayer.dequeue (s : PPState) : Option MsgPkt × PPState :=
  match s.queue with
  | [] => (none, s)
  | p :: rest => (some p, { s with queue := rest })

/-- PacketPlayer::filePositionFromClock (lines 299-304).  The source divides
by endTime - startTime with no guard; a zero difference is division by
zero, undefined behaviour in C++, modelled as none.  C++ int64 division
truncates toward zero, so Int.tdiv. -/
def PacketPlayer.filePositionFromClock (s : PPState) (wallclockTimeMs : Int) :
    Option Int :=
  let durationSinceStartMs := wallclockTimeMs - s.startTime
  let durationMs := s.endTime - s.startTime
  if durationMs = 0 then none
  else some ((s.totalLength * durationSinceStartMs).tdiv durationMs)

/-- PacketPlayer::seek (lines 306-325): the position is interpolated from
the wallclock time, clamped to totalLength from above (lines 311-313) and
to 0 from below (lines 315-317), then reset() restarts parser, demuxer and
queue state. -/
def PacketPlayer.seek (s : PPState) (wallclockTimeMs : Int) : Option PPState :=
  (PacketPlayer.filePositionFromClock s wallclockTimeMs).map (fun pos0 =>
    let pos1 := if s.totalLength ≤ pos0 then s.totalLength else pos0
    let pos2 := if pos1 < 0 then 0 else pos1
    PacketPlayer.reset { s with position := pos2 })

/-- C4: in the recorded player, an audio/video packet produced while the
demuxer set is not ready is appended to the pre-queue, and dropped instead
once more than 50 packets are pending; when the set is ready with a
stream change pending, the stream-change packet enters the queue first,
the pre-queued packets follow in their original order, then the current
packet, so the stream-change packet is the first one dequeued. -/
theorem c4_preQueue_and_streamchange_order (s : PPState) (p : StreamPacket) :
    (DemuxerBundle.isReady s.demuxers = false →
      (p.content = Content.scVIDEO ∨ p.content = Content.scAUDIO) →
      PacketPlayer.onStreamPacket s p =
        (if 50 < s.preQueue.length then s
         else { s with preQueue := s.preQueue ++ [PacketPlayer.muxPacket s p] }))
    ∧ (DemuxerBundle.isReady s.demuxers = true →
        s.requestStreamChange = true →
        (p.content = Content.scVIDEO ∨ p.content = Content.scAUDIO) →
        PacketPlayer.onStreamPacket s p =
          { s with requestStreamChange := false, preQueue := [],
                   queue := s.queue ++ [createStreamChangePacket s.demuxers]
                     ++ s.preQueue ++ [PacketPlayer.muxPacket s p] })
    ∧ (DemuxerBundle.isReady s.demuxers = true →
        s.requestStreamChange = true →
        p.content ≠ Content.scVIDEO → p.content ≠ Content.scAUDIO →
        PacketPlayer.onStreamPacket s p =
          { s with requestStreamChange := false, preQueue := [],
                   queue := s.queue ++ [createStreamChangePacket s.demuxers]
                     ++ s.preQueue })
    ∧ (DemuxerBundle.isReady s.demuxers = true →
        s.requestStreamChange = true → s.queue = [] →
        (PacketPlayer.dequeue (PacketPlayer.onStreamPacket s p)).1
          = some (createStreamChangePacket s.demuxers)) := by
  refine ⟨?_, ?_, ?_, ?_⟩
  · intro h1 h2
    rcases h2 with h2 | h2 <;>
      simp [PacketPlayer.onStreamPacket, h1, h2]
  · intro h1 h2 h3
    rcases h3 with h3 | h3 <;>
      simp [PacketPlayer.onStreamPacket, PacketPlayer.muxPacket, h1, h2, h3]
  · intro h1 h2 h3 h4
    simp [PacketPlayer.onStreamPacket, h1, h2, h3, h4]
  · intro h1 h2 h3
    by_cases h4 : p.content ≠ Content.scVIDEO ∧ p.content ≠ Content.scAUDIO
    · simp [PacketPlayer.onStreamPacket, PacketPlayer.dequeue, h1, h2, h3, h4]
    · simp only [not_and_or, not_not] at h4
      rcases h4 with h4 | h4 <;>
        simp [PacketPlayer.onStreamPacket, PacketPlayer.dequeue, h1, h2, h3, h4]

/-- A ready one-stream demuxer set state with a pending stream change and
three pre-queued packets, used to instantiate c4 concretely. -/
def c4State : PPState :=
  { parserSt := 1, patVersion := 0, pmtVersion := 2, requestStreamChange := true,
    demuxers := [true], preQueue := [⟨2, 5, 1, [1]⟩, ⟨2, 5, 2, [2]⟩],
    queue := [], streamPacket := none, position := 0, totalLength := 1000,
    startTime := 0, endTime := 0, lengthSec := 60 }

/-- Witness for c4_preQueue_and_streamchange_order: on the concrete ready
state the stream-change packet is dequeued first. -/
theorem c4_preQueue_and_streamchange_order_witness :
    (PacketPlayer.dequeue (PacketPlayer.onStreamPacket c4State
        ⟨256, Content.scVIDEO, 1, 0, 0, 0, [9], 0⟩)).1
      = some (createStreamChangePacket [true]) :=
  (c4_preQueue_and_streamchange_order c4State
    ⟨256, Content.scVIDEO, 1, 0, 0, 0, [9], 0⟩).2.2.2 rfl rfl rfl

/-- C2 (amended): PacketPlayer::seek resets the PAT/PMT parser state, the
versions, the demuxer set, the pending stream change, the partial outer
envelope and the output queue — but the pre-queue survives a seek
unchanged. -/
theorem c2_seek_resets_all_but_preQueue (s : PPState) (wc : Int)
    (h : s.endTime ≠ s.startTime) :
    ∃ s2, PacketPlayer.seek s wc = some s2 ∧
      s2.parserSt = 0 ∧ s2.patVersion = -1 ∧ s2.pmtVersion = -1 ∧
      s2.requestStreamChange = true ∧ s2.demuxers = [] ∧
      s2.streamPacket = none ∧ s2.queue = [] ∧ s2.preQueue = s.preQueue := by
  have hd : ¬ (s.endTime - s.startTime = 0) := by
    intro hh
    exact h (by omega)
  cases hfp : PacketPlayer.filePositionFromClock s wc with
  | none =>
      rw [PacketPlayer.filePositionFromClock, if_neg hd] at hfp
      exact absurd hfp (by simp)
  | some pos0 =>
      refine ⟨PacketPlayer.reset { s with position :=
          if (if s.totalLength ≤ pos0 then s.totalLength else pos0) < 0 then 0
          else if s.totalLength ≤ pos0 then s.totalLength else pos0 },
        ?_, rfl, rfl, rfl, rfl, rfl, rfl, rfl, rfl⟩
      simp [PacketPlayer.seek, hfp]

/-- A MsgPacket standing for a stream packet produced before a seek. -/
def stalePkt : MsgPkt := ⟨ROBOTV_STREAM_MUXPKT, ROBOTV_CHANNEL_STREAM, 1, [5, 5]⟩

/-- A recorded-player state whose demuxer set is not yet ready and whose
pre-queue holds one packet when the seek arrives. -/
def c2State : PPState :=
  { parserSt := 7, patVersion := 2, pmtVersion := 4,
    requestStreamChange := false, demuxers := [false],
    preQueue := [stalePkt], queue := [⟨2, 5, 0, [9]⟩],
    streamPacket := some ⟨[0], []⟩, position := 60000, totalLength := 100000,
    startTime := 100, endTime := 200, lengthSec := 60 }

/-- Counterexample to C2 as stated: seeking c2State to wallclock 150 leaves
the pre-queued packet from before the seek in the player, and once the
demuxer set becomes ready again the surviving packet is placed into the
output queue, so a packet from before the seek is deliverable afterwards. -/
theorem c2_reset_preQueue_counterexample :
    PacketPlayer.seek c2State 150
      = some (PacketPlayer.reset { c2State with position := 50000 })
    ∧ (PacketPlayer.reset { c2State with position := 50000 }).preQueue
      = [stalePkt]
    ∧ stalePkt ∈ (PacketPlayer.onStreamPacket
        { PacketPlayer.reset { c2State with position := 50000 } with
            demuxers := [true] }
        ⟨256, Content.scVIDEO, 2, 0, 0, 0, [1], 0⟩).queue := by
  decide

/-- Witness for c2_seek_resets_all_but_preQueue at the concrete state
c2State. -/
theorem c2_seek_resets_all_but_preQueue_witness :
    ∃ s2, PacketPlayer.seek c2State 150 = some s2 ∧
      s2.queue = [] ∧ s2.preQueue = c2State.preQueue := by
  obtain ⟨s2, h1, _, _, _, _, _, _, h8, h9⟩ :=
    c2_seek_resets_all_but_preQueue c2State 150 (by decide)
  exact ⟨s2, h1, h8, h9⟩

/-- The clamp of the claim: values at or above the total length become the
total length, negative values become 0, written in the order of seek lines
311-317. -/
def clampPos (total pos0 : Int) : Int :=
  if total ≤ pos0 then total else if pos0 < 0 then 0 else pos0

/-- C5: seek sets the file position to the exact integer value
(totalLength * (wallclockTimeMs - startTime)) / (endTime - startTime),
clamps values at or above totalLength to totalLength and negative values
to 0, and only then resets parser, demuxer and queue state; the resulting
position lies in the interval from 0 to totalLength. -/
theorem c5_seek_interpolation_clamp (s : PPState) (wc : Int)
    (h : s.endTime ≠ s.startTime) (hT : 0 ≤ s.totalLength) :
    PacketPlayer.seek s wc
      = some (PacketPlayer.reset
          { s with
            position := clampPos s.totalLength
              ((s.totalLength * (wc - s.startTime)).tdiv
                (s.endTime - s.startTime)) })
    ∧ (∀ s2, PacketPlayer.seek s wc = some s2 →
        0 ≤ s2.position ∧ s2.position ≤ s.totalLength) := by
  have hd : ¬ (s.endTime - s.startTime = 0) := by
    intro hh
    exact h (by omega)
  have hmain : PacketPlayer.seek s wc
      = some (PacketPlayer.reset
          { s with
            position := clampPos s.totalLength
              ((s.totalLength * (wc - s.startTime)).tdiv
                (s.endTime - s.startTime)) }) := by
    unfold PacketPlayer.seek PacketPlayer.filePositionFromClock clampPos
    rw [if_neg hd]
    by_cases h1 : s.totalLength ≤
        (s.totalLength * (wc - s.startTime)).tdiv (s.endTime - s.startTime)
    · have h2 : ¬ s.totalLength < 0 := by omega
      simp [h1, h2]
    · by_cases h3 :
          (s.totalLength * (wc - s.startTime)).tdiv (s.endTime - s.startTime) < 0
      · simp [h1, h3]
      · simp [h1, h3]
  refine ⟨hmain, ?_⟩
  intro s2 hs2
  rw [hmain] at hs2
  injection hs2 with hs2
  subst hs2
  simp only [PacketPlayer.reset, PacketPlayer.clearQueue, clampPos]
  constructor <;> (split_ifs <;> omega)

/-- A state with a known time window, used to instantiate c5 concretely. -/
def c5State : PPState :=
  { parserSt := 0, patVersion := -1, pmtVersion := -1,
    requestStreamChange := true, demuxers := [], preQueue := [], queue := [],
    streamPacket := none, position := 0, totalLength := 1000,
    startTime := 100, endTime := 200, lengthSec := 60 }

/-- Witness for c5_seek_interpolation_clamp: wallclock 150 in the window
from 100 to 200 over 1000 bytes lands at byte 500. -/
theorem c5_seek_interpolation_clamp_witness :
    PacketPlayer.seek c5State 150
      = some (PacketPlayer.reset { c5State with position := 500 }) := by
  have h := (c5_seek_interpolation_clamp c5State 150 (by decide) (by decide)).1
  rw [h]
  decide

/-- C9: the constructor leaves startTime = endTime = 0 ms, and
filePositionFromClock divides by endTime - startTime with no guard, so a
seek issued before an I-frame has separated the two times divides by zero
(modelled as none); once the times differ the quotient is defined and
equals the interpolation formula. -/
theorem c9_seek_division_precondition (L len wc : Int) (s : PPState) :
    (PacketPlayer.init L len).startTime = 0
    ∧ (PacketPlayer.init L len).endTime = 0
    ∧ PacketPlayer.filePositionFromClock (PacketPlayer.init L len) wc = none
    ∧ PacketPlayer.seek (PacketPlayer.init L len) wc = none
    ∧ (s.endTime = s.startTime →
        PacketPlayer.filePositionFromClock s wc = none)
    ∧ (s.endTime ≠ s.startTime →
        PacketPlayer.filePositionFromClock s wc
          = some ((s.totalLength * (wc - s.startTime)).tdiv
              (s.endTime - s.startTime))) := by
  refine ⟨rfl, rfl, rfl, rfl, ?_, ?_⟩
  · intro h
    have hz : s.endTime - s.startTime = 0 := by omega
    simp [PacketPlayer.filePositionFromClock, hz]
  · intro h
    have hz : ¬ (s.endTime - s.startTime = 0) := by
      intro hh
      exact h (by omega)
    simp [PacketPlayer.filePositionFromClock, hz]

/-- The codec types of streaminfo.h lines 44-56. -/
inductive SIType
  | stNONE
  | stMPEG2AUDIO
  | stAC3
  | stEAC3
  | stAAC
  | stLATM
  | stMPEG2VIDEO
  | stH264
  | stDVBSUB
  | stTELETEXT
  | stH265
deriving DecidableEq, Repr

/-- Modelled from the spec: StreamInfo::getContent(Type) (streaminfo.cpp is
not under src/) — §3: the content kind is a pure function of the codec
type. -/
def SIType.content : SIType → Content
  | SIType.stMPEG2VIDEO => Content.scVIDEO
  | SIType.stH264 => Content.scVIDEO
  | SIType.stH265 => Content.scVIDEO
  | SIType.stMPEG2AUDIO => Content.scAUDIO
  | SIType.stAC3 => Content.scAUDIO
  | SIType.stEAC3 => Content.scAUDIO
  | SIType.stAAC => Content.scAUDIO
  | SIType.stLATM => Content.scAUDIO
  | SIType.stDVBSUB => Content.scSUBTITLE
  | SIType.stTELETEXT => Content.scTELETEXT
  | SIType.stNONE => Content.scNONE

/-- The StreamInfo fields createFromPatPmt sets (streaminfo.h lines 110-148):
pid, codec type, language (abstracted to a numeric code for the 3-letter
string) and the subtitling descriptor triple. -/
structure StreamInfo where
  pid : Nat
  type : SIType
  lang : Nat
  subtitlingType : Nat
  compositionPageId : Nat
  ancillaryPageId : Nat
deriving DecidableEq, Repr

/-- The StreamInfo(pid, type, lang) constructor of streaminfo.h line 70; the
descriptor fields start at zero. -/
def mkStreamInfo (pid : Nat) (type : SIType) (lang : Nat) : StreamInfo :=
  ⟨pid, type, lang, 0, 0, 0⟩

/-- StreamInfo::setSubtitlingDescriptor (streaminfo.h line 108). -/
def StreamInfo.setSubtitlingDescriptor (s : StreamInfo)
    (subtitlingType compositionPageId ancillaryPageId : Nat) : StreamInfo :=
  { s with subtitlingType := subtitlingType,
           compositionPageId := compositionPageId,
           ancillaryPageId := ancillaryPageId }

/-- Modelled from the spec: StreamBundle::addStream (streambundle.cpp is not
under src/) — §3: an insertion-ordered collection keyed by pid with no
duplicate pids, so a stream whose pid is already present replaces that
entry and a new pid is appended. -/
def StreamBundle.addStream (b : List StreamInfo) (s : StreamInfo) :
    List StreamInfo :=
  if b.any (fun t => t.pid == s.pid) then
    b.map (fun t => if t.pid == s.pid then s else t)
  else b ++ [s]

/-- The cPatPmtParser facts createFromPatPmt consults (the parser is a VDR
collaborator): whether GetVersions succeeds, the video pid and type, and
the Dpid/Apid/Spid tables as (pid, type, language) rows, each listed up to
its first zero pid. -/
structure PatPmtInfo where
  versionsOk : Bool
  vpid : Nat
  vtype : Nat
  dstreams : List (Nat × Nat × Nat)
  astreams : List (Nat × Nat × Nat)
  sstreams : List (Nat × Nat × Nat × Nat × Nat)
deriving DecidableEq, Repr

/-- The video ternary chain of createFromPatPmt lines 341-344. -/
def vtypeToType (vtype : Nat) : SIType :=
  if vtype = 0x02 then SIType.stMPEG2VIDEO
  else if vtype = 0x1b then SIType.stH264
  else if vtype = 0x24 then SIType.stH265
  else SIType.stNONE

/-- The (E)AC3 ternary chain of createFromPatPmt lines 350-352. -/
def dtypeToType (dtype : Nat) : SIType :=
  if dtype = 0x6A then SIType.stAC3
  else if dtype = 0x7A then SIType.stEAC3
  else SIType.stNONE

/-- The audio ternary chain of createFromPatPmt lines 360-364. -/
def atypeToType (atype : Nat) : SIType :=
  if atype = 0x04 then SIType.stMPEG2AUDIO
  else if atype = 0x03 then SIType.stMPEG2AUDIO
  else if atype = 0x0f then SIType.stAAC
  else if atype = 0x11 then SIType.stLATM
  else SIType.stNONE

/-- PacketPlayer::createFromPatPmt (lines 327-381): an empty bundle when the
versions are not available, otherwise the video stream, then the (E)AC3
streams, the audio streams and the subtitle streams, each mapped through
the ternary chains above with the source pid preserved. -/
def PacketPlayer.createFromPatPmt (pp : PatPmtInfo) : List StreamInfo :=
  if ¬ pp.versionsOk then []
  else
    let item := StreamBundle.addStream []
      (mkStreamInfo pp.vpid (vtypeToType pp.vtype) 0)
    let item := pp.dstreams.foldl
      (fun b d => StreamBundle.addStream b
        (mkStreamInfo d.1 (dtypeToType d.2.1) d.2.2)) item
    let item := pp.astreams.foldl
      (fun b a => StreamBundle.addStream b
        (mkStreamInfo a.1 (atypeToType a.2.1) a.2.2)) item
    pp.sstreams.foldl
      (fun b t => StreamBundle.addStream b
        (StreamInfo.setSubtitlingDescriptor
          (mkStreamInfo t.1 SIType.stDVBSUB t.2.1) t.2.2.1 t.2.2.2.1 t.2.2.2.2))
      item

/-- C3: the PAT/PMT container type codes map to StreamInfo types per the
table 0x02 MPEG2 video, 0x1B H.264, 0x24 H.265, 0x03/0x04 MPEG2 audio,
0x0F AAC, 0x11 LATM, 0x6A AC3, 0x7A EAC3, subtitle rows DVB subtitle,
anything else none; and for a PAT/PMT carrying exactly the codes
0x1B/0x0F/0x6A the bundle is exactly one H.264 video stream, one AC3 audio
stream and one AAC audio stream, each keeping the source pid. -/
theorem c3_patpmt_type_mapping :
    vtypeToType 0x02 = SIType.stMPEG2VIDEO
    ∧ vtypeToType 0x1b = SIType.stH264
    ∧ vtypeToType 0x24 = SIType.stH265
    ∧ atypeToType 0x03 = SIType.stMPEG2AUDIO
    ∧ atypeToType 0x04 = SIType.stMPEG2AUDIO
    ∧ atypeToType 0x0f = SIType.stAAC
    ∧ atypeToType 0x11 = SIType.stLATM
    ∧ dtypeToType 0x6A = SIType.stAC3
    ∧ dtypeToType 0x7A = SIType.stEAC3
    ∧ (∀ t, t ≠ 0x02 → t ≠ 0x1b → t ≠ 0x24 → vtypeToType t = SIType.stNONE)
    ∧ (∀ t, t ≠ 0x03 → t ≠ 0x04 → t ≠ 0x0f → t ≠ 0x11 →
        atypeToType t = SIType.stNONE)
    ∧ (∀ t, t ≠ 0x6A → t ≠ 0x7A → dtypeToType t = SIType.stNONE)
    ∧ PacketPlayer.createFromPatPmt
        ⟨true, 100, 0x1b, [(200, 0x6A, 8)], [(300, 0x0f, 9)], []⟩
      = [mkStreamInfo 100 SIType.stH264 0, mkStreamInfo 200 SIType.stAC3 8,
         mkStreamInfo 300 SIType.stAAC 9]
    ∧ SIType.content SIType.stH264 = Content.scVIDEO
    ∧ SIType.content SIType.stAC3 = Content.scAUDIO
    ∧ SIType.content SIType.stAAC = Content.scAUDIO
    ∧ PacketPlayer.createFromPatPmt ⟨true, 100, 0x1b, [], [], [(400, 7, 16, 1, 2)]⟩
      = [mkStreamInfo 100 SIType.stH264 0,
         StreamInfo.setSubtitlingDescriptor (mkStreamInfo 400 SIType.stDVBSUB 7)
           16 1 2] := by
  refine ⟨rfl, rfl, rfl, rfl, rfl, rfl, rfl, rfl, rfl, ?_, ?_, ?_, by decide,
    rfl, rfl, rfl, by decide⟩
  · intro t h1 h2 h3
    simp [vtypeToType, h1, h2, h3]
  · intro t h1 h2 h3 h4
    simp [atypeToType, h1, h2, h3, h4]
  · intro t h1 h2
    simp [dtypeToType, h1, h2]

/-- The protocol status codes of §7 (robotvcommand.h is not under src/, so
the numeric values are abstracted; the claims use only distinctness). -/
inductive Status
  | ok
  | recRunning
  | dataLocked
  | dataInvalid
  | error
deriving DecidableEq, Repr

/-- One VDR timer as switchChannel and processOpen consult it: whether it is
currently recording and whether it matches the current time. -/
structure Timer where
  recording : Bool
  matchesNow : Bool
deriving DecidableEq, Repr

/-- The loop over the timer list shared by livestreamer.cpp lines 103-108
and streamcontroller.cpp lines 129-134: some timer is recording and
matches the current time. -/
def anyRecordingTimerMatches (timers : List Timer) : Bool :=
  timers.any (fun t => t.recording && t.matchesNow)

/-- The collaborator results LiveStreamer::switchChannel consumes: whether
the channel pointer is null, whether cDevice::GetDevice found a free
device, whether SwitchChannel succeeded and whether AttachReceiver
succeeded. -/
structure SwitchEnv where
  channelNull : Bool
  deviceFree : Bool
  switchOk : Bool
  attachOk : Bool
deriving DecidableEq, Repr

/-- LiveStreamer::switchChannel (livestreamer.cpp lines 89-163), status
flow: a null channel is ERROR (91-94); with no free device the timers are
scanned and an active matching recording timer gives RECRUNNING, otherwise
DATALOCKED (99-112); a failed channel switch is ERROR (116-119); the cache
and demuxer bookkeeping of lines 121-154 performs no early return and does
not affect the status; a failed receiver attach is DATALOCKED (157-159);
otherwise OK (162). -/
def LiveStreamer.switchChannel (env : SwitchEnv) (timers : List Timer) :
    Status :=
  if env.channelNull then Status.error
  else if ¬ env.deviceFree then
    if anyRecordingTimerMatches timers then Status.recRunning
    else Status.dataLocked
  else if ¬ env.switchOk then Status.error
  else if ¬ env.attachOk then Status.dataLocked
  else Status.ok

/-- One channel as the resolution sees it: the roboTV unique id and the VDR
channel number. -/
structure Channel where
  uid : Nat
  number : Nat
deriving DecidableEq, Repr

/-- Modelled from the spec: findChannelByUid (tools/hash, not under src/) —
§4.5: OPEN resolves its target first by unique id, falling back to an
ordinal/number lookup through the channel-list collaborator. -/
def findChannelByUid (channels : List Channel) (uid : Nat) : Option Channel :=
  match channels.find? (fun c => c.uid == uid) with
  | some c => some c
  | none => channels.find? (fun c => c.number == uid)

/-- The collaborator state StreamController::processOpen consumes: the VDR
channel list, the switchChannel collaborator results for the streamer it
creates, and the timer list read under LOCK_TIMERS_READ (the same VDR
timer list switchChannel scans). -/
structure OpenEnv where
  channels : List Channel
  sw : SwitchEnv
  timers : List Timer
deriving DecidableEq, Repr

/-- StreamController::processOpen (streamcontroller.cpp lines 68-140),
resolution and status flow: stopStreaming destroys any prior session (94);
an unresolved channel answers DATAINVALID with no session created
(105-113); otherwise startStreaming creates a streamer and switches
(116-118, 189-196); on a non-OK status the timers are re-scanned and a
matching recording timer turns the status into RECRUNNING (125-136).  The
result is the session afterwards (the streamer is kept even on a failed
switch) and the response status. -/
def StreamController.processOpen (env : OpenEnv) (uid : Nat)
    (_prior : Option Unit) : Option Unit × Status :=
  match findChannelByUid env.channels uid with
  | none => (none, Status.dataInvalid)
  | some _ =>
      let status := LiveStreamer.switchChannel env.sw env.timers
      let status2 :=
        if status ≠ Status.ok ∧ anyRecordingTimerMatches env.timers = true
        then Status.recRunning else status
      (some (), status2)

/-- StreamController::processRequest (lines 147-159): with no session the
command is a no-op producing no response; with one the streamer is pulled
and a response is produced either way.  The first component records
whether the streamer was consulted. -/
def StreamController.processRequest (streamer : Option Unit) :
    Bool × Option Unit :=
  match streamer with
  | none => (false, none)
  | some _ => (true, some ())

/-- StreamController::processPause (lines 161-172): with no session the
command is a no-op producing no response; with one pause is applied and a
response is produced. -/
def StreamController.processPause (streamer : Option Unit) (_pauseOn : Bool) :
    Bool × Option Unit :=
  match streamer with
  | none => (false, none)
  | some _ => (true, some ())

/-- StreamController::processSignal (lines 174-181): with no session the
command is a no-op; with one requestSignalInfo runs; the direct response
is nothing in both cases. -/
def StreamController.processSignal (streamer : Option Unit) :
    Bool × Option Unit :=
  match streamer with
  | none => (false, none)
  | some _ => (true, none)

/-- LiveStreamer::switchChannel returns one of ERROR, RECRUNNING,
DATALOCKED and OK, never DATAINVALID. -/
theorem switchChannel_ne_dataInvalid (env : SwitchEnv) (timers : List Timer) :
    LiveStreamer.switchChannel env timers ≠ Status.dataInvalid := by
  unfold LiveStreamer.switchChannel
  split_ifs <;> decide

/-- C6: when OPEN starts a live session and no capture device is free, the
status is RECRUNNING when some timer is currently recording and matches
the current time, and DATALOCKED when no such timer exists; the case is
never collapsed into the generic ERROR status, neither by switchChannel
nor after the processOpen timer re-scan. -/
theorem c6_no_device_recrunning (env : SwitchEnv) (timers : List Timer)
    (h1 : env.channelNull = false) (h2 : env.deviceFree = false) :
    LiveStreamer.switchChannel env timers
      = (if anyRecordingTimerMatches timers then Status.recRunning
         else Status.dataLocked)
    ∧ LiveStreamer.switchChannel env timers ≠ Status.error
    ∧ (∀ (oenv : OpenEnv) (uid : Nat) (prior : Option Unit) (c : Channel),
        oenv.sw = env → oenv.timers = timers →
        findChannelByUid oenv.channels uid = some c →
        (StreamController.processOpen oenv uid prior).2
          = (if anyRecordingTimerMatches timers then Status.recRunning
             else Status.dataLocked)
        ∧ (StreamController.processOpen oenv uid prior).2 ≠ Status.error) := by
  have hsw : LiveStreamer.switchChannel env timers
      = (if anyRecordingTimerMatches timers then Status.recRunning
         else Status.dataLocked) := by
    simp [LiveStreamer.switchChannel, h1, h2]
  refine ⟨hsw, ?_, ?_⟩
  · rw [hsw]
    split_ifs <;> decide
  · intro oenv uid prior c hsw2 ht hf
    cases hm : anyRecordingTimerMatches timers with
    | true =>
        constructor <;>
          simp [StreamController.processOpen, hf, hsw2, ht, hsw, hm]
    | false =>
        constructor <;>
          simp [StreamController.processOpen, hf, hsw2, ht, hsw, hm]

/-- Witness for c6_no_device_recrunning: with no free device and one
matching recording timer the status is RECRUNNING. -/
theorem c6_no_device_recrunning_witness :
    LiveStreamer.switchChannel ⟨false, false, true, true⟩ [⟨true, true⟩]
      = Status.recRunning := by
  have h := (c6_no_device_recrunning ⟨false, false, true, true⟩
    [⟨true, true⟩] rfl rfl).1
  rw [h]
  decide

/-- C7: an OPEN whose uid resolves to no channel answers DATAINVALID and
leaves the controller without a session, and REQUEST, PAUSE and SIGNAL on
a controller without a session are no-ops producing no response. -/
theorem c7_open_unresolved_no_session (env : OpenEnv) (uid : Nat)
    (prior : Option Unit) (b : Bool)
    (h : findChannelByUid env.channels uid = none) :
    StreamController.processOpen env uid prior = (none, Status.dataInvalid)
    ∧ StreamController.processRequest none = (false, none)
    ∧ StreamController.processPause none b = (false, none)
    ∧ StreamController.processSignal none = (false, none) := by
  refine ⟨?_, rfl, rfl, rfl⟩
  simp [StreamController.processOpen, h]

/-- Witness for c7_open_unresolved_no_session: uid 5 resolves to nothing in
a one-channel list. -/
theorem c7_open_unresolved_no_session_witness :
    StreamController.processOpen ⟨[⟨1, 2⟩], ⟨false, true, true, true⟩, []⟩ 5
      (some ()) = (none, Status.dataInvalid) :=
  (c7_open_unresolved_no_session ⟨[⟨1, 2⟩], ⟨false, true, true, true⟩, []⟩ 5
    (some ()) true (by decide)).1

/-- C8: OPEN resolves its target channel first by unique id; when that
lookup fails the resolution falls back to the number lookup over the
channel list; DATAINVALID is reported only when both lookups fail, and a
resolved channel never yields DATAINVALID. -/
theorem c8_uid_then_number_resolution (channels : List Channel) (uid : Nat)
    (c : Channel) (env : OpenEnv) (prior : Option Unit) :
    (channels.find? (fun ch => ch.uid == uid) = some c →
      findChannelByUid channels uid = some c)
    ∧ (channels.find? (fun ch => ch.uid == uid) = none →
        findChannelByUid channels uid
          = channels.find? (fun ch => ch.number == uid))
    ∧ (findChannelByUid env.channels uid = none →
        StreamController.processOpen env uid prior
          = (none, Status.dataInvalid))
    ∧ (findChannelByUid env.channels uid = some c →
        (StreamController.processOpen env uid prior).2 ≠ Status.dataInvalid
        ∧ (StreamController.processOpen env uid prior).1 = some ()) := by
  refine ⟨?_, ?_, ?_, ?_⟩
  · intro h
    simp [findChannelByUid, h]
  · intro h
    simp [findChannelByUid, h]
  · intro h
    simp [StreamController.processOpen, h]
  · intro h
    constructor
    · simp only [StreamController.processOpen, h]
      by_cases hc : LiveStreamer.switchChannel env.sw env.timers ≠ Status.ok
          ∧ anyRecordingTimerMatches env.timers = true
      · simp [hc]
      · simp [hc]
        exact switchChannel_ne_dataInvalid env.sw env.timers
    · simp [StreamController.processOpen, h]

/-- Witness for c8_uid_then_number_resolution: uid 3 misses the unique ids
but matches channel number 3, so the fallback resolves it. -/
theorem c8_uid_then_number_resolution_witness :
    findChannelByUid [⟨10, 3⟩] 3 = some ⟨10, 3⟩ := by
  have h := (c8_uid_then_number_resolution [⟨10, 3⟩] 3 ⟨10, 3⟩
    ⟨[], ⟨false, false, false, false⟩, []⟩ none).2.1 (by decide)
  rw [h]
  decide

end RoboTV
